import Mathlib

/-!
Shallow embedding of the br-2025 contact-sheet viewport/interaction core.

Sources embedded (file:line refer to the repository):
* GridLayout (SheetAnimation.js:209-263, the variant with scale = 3.5/sheetWidth)
* SheetUtils (src/unnamed/part_011): isOverImage, findNearestImage,
  calculateZoomFrustum
* ContactSheet (src/unnamed/part_005): gesture handlers, state machine
* SheetAnimation (src/src/components/SheetAnimation.js): zoomToImage, zoomOut
* SheetInteraction (src/unnamed/part_010): event wiring

Camera-position and frustum tweens issued to gsap are modelled as pending
targets stored in the state together with a data-level encoding of their
completion callbacks; a completion event applies the target and runs the
encoded callback.  All numeric state is exact rational arithmetic; the two
IEEE special values the gesture code can actually produce (division by a zero
time delta) are modelled explicitly by `JSNum`.
-/

/-- JavaScript number semantics restricted to what the gesture code needs:
finite values as exact rationals, plus the IEEE special values that the
velocity computation `(delta) / deltaTime` can produce when `deltaTime = 0`. -/
inductive JSNum where
  | num (q : ℚ)
  | posInf
  | negInf
  | nan
deriving DecidableEq

/-- JS division `a / b` of finite operands: ordinary division when `b ≠ 0`;
`0/0 = NaN`, `a/0 = ±Infinity` by the sign of `a` (IEEE-754, as in JS). -/
def jsDiv (a b : ℚ) : JSNum :=
  if b = 0 then
    if a = 0 then JSNum.nan else if 0 < a then JSNum.posInf else JSNum.negInf
  else JSNum.num (a / b)

/-- JS `Math.abs` on the modelled values: `abs NaN = NaN`, `abs ±Inf = +Inf`. -/
def jsAbs : JSNum → JSNum
  | JSNum.num q => JSNum.num |q|
  | JSNum.posInf => JSNum.posInf
  | JSNum.negInf => JSNum.posInf
  | JSNum.nan => JSNum.nan

/-- JS comparison `v > c` against a finite constant: any comparison with NaN
is false; `+Infinity > c` is true and `-Infinity > c` is false. -/
def jsGt : JSNum → ℚ → Bool
  | JSNum.num q, c => decide (c < q)
  | JSNum.posInf, _ => true
  | JSNum.negInf, _ => false
  | JSNum.nan, _ => false

/-! ## GridLayout (SheetAnimation.js:209-263) -/

def sheetWidth : ℚ := 5685
def sheetHeight : ℚ := 6100
def imageWidth : ℚ := 600
def imageHeight : ℚ := 900
def horizontalMargin : ℚ := 315
def verticalMargin : ℚ := 40
def firstImageX : ℚ := 250
def firstImageY : ℚ := 250
def gridRows : ℕ := 6
def gridColumns : ℕ := 6

/-- source: `this.scale = 3.5 / this.sheetWidth` (SheetAnimation.js:232). -/
def layoutScale : ℚ := (7 / 2) / sheetWidth

/-- A logical grid address `{row, col}`. -/
structure Cell where
  row : ℤ
  col : ℤ
deriving DecidableEq

/-- source: GridLayout.getImagePosition (SheetAnimation.js:235-248).  Pixel
coordinates of the cell are normalised around the sheet centre and the Y axis
is flipped (scene Y up, pixel Y down). -/
def getImagePosition (row col : ℤ) : ℚ × ℚ :=
  let pixelX := firstImageX + col * (imageWidth + horizontalMargin)
  let pixelY := firstImageY + row * (imageHeight + verticalMargin)
  ((pixelX + imageWidth / 2 - sheetWidth / 2) * layoutScale,
   -(pixelY + imageHeight / 2 - sheetHeight / 2) * layoutScale)

/-- The 36 grid cells in the row-major order the source loops iterate
(`for row ... for col ...`). -/
def cellsRowMajor : List Cell :=
  (List.range gridRows).foldr
    (fun r acc => ((List.range gridColumns).map fun c => ⟨(r : ℤ), (c : ℤ)⟩) ++ acc) []

/-- One iteration of the findNearestImage loop body (part_011:75-89): keep the
candidate if its distance is strictly smaller than the running minimum
(`none` models the initial `Infinity`).  The source compares
`Math.sqrt ((x-px)^2 + (y-py)^2)` values; the square root is strictly
monotone on nonnegative reals (`sqrt_lt_sqrt_iff_of_nonneg` below), so
comparing the radicands, as done here, selects exactly the same branch. -/
def findNearestStep (x y : ℚ) (acc : Option ℚ × Cell) (c : Cell) : Option ℚ × Cell :=
  let pos := getImagePosition c.row c.col
  let dist := (x - pos.1) ^ 2 + (y - pos.2) ^ 2
  match acc.1 with
  | none => (some dist, c)
  | some m => if dist < m then (some dist, c) else acc

/-- source: findNearestImage (part_011:70-92): scan every cell in row-major
order and return the one whose position is nearest to `(x, y)`. -/
def findNearestImage (x y : ℚ) : Cell :=
  (cellsRowMajor.foldl (findNearestStep x y) (none, ⟨0, 0⟩)).2

/-- Justification for comparing squared distances in `findNearestStep`:
`Real.sqrt` preserves and reflects strict order on nonnegative arguments. -/
theorem sqrt_lt_sqrt_iff_of_nonneg (a b : ℝ) (ha : 0 ≤ a) :
    Real.sqrt a < Real.sqrt b ↔ a < b := by
  constructor
  · intro h
    by_contra hab
    exact absurd (Real.sqrt_le_sqrt (not_lt.mp hab)) (not_le.mpr h)
  · exact fun h => Real.sqrt_lt_sqrt ha h

/-! ## SheetUtils geometry (part_011) -/

/-- The column index computation shared by isOverImage (part_011:36) and
getImageAtPointer (part_005:551):
`gridX = Math.floor((uv.x * sheetWidth - firstImageX) / (imageWidth + horizontalMargin))`. -/
def sheetGridX (uvx : ℚ) : ℤ :=
  ⌊(uvx * sheetWidth - firstImageX) / (imageWidth + horizontalMargin)⌋

/-- The row index computation shared by isOverImage (part_011:37) and
getImageAtPointer (part_005:552):
`gridY = Math.floor(((1 - uv.y) * sheetHeight - firstImageY) / (imageHeight + verticalMargin))`. -/
def sheetGridY (uvy : ℚ) : ℤ :=
  ⌊((1 - uvy) * sheetHeight - firstImageY) / (imageHeight + verticalMargin)⌋

/-- source: isOverImage (part_011:33-53): map a texture coordinate on the
sheet to a grid index by integer division and test that the index is on the
grid and the point lies inside the image rectangle (not in a margin). -/
def isOverImage (uvx uvy : ℚ) : Bool :=
  if sheetGridX uvx < 0 ∨ (gridColumns : ℤ) ≤ sheetGridX uvx ∨
      sheetGridY uvy < 0 ∨ (gridRows : ℤ) ≤ sheetGridY uvy then
    false
  else
    decide
      (firstImageX + (sheetGridX uvx : ℚ) * (imageWidth + horizontalMargin) ≤ uvx * sheetWidth ∧
       uvx * sheetWidth ≤
         firstImageX + (sheetGridX uvx : ℚ) * (imageWidth + horizontalMargin) + imageWidth ∧
       firstImageY + (sheetGridY uvy : ℚ) * (imageHeight + verticalMargin) ≤
         (1 - uvy) * sheetHeight ∧
       (1 - uvy) * sheetHeight ≤
         firstImageY + (sheetGridY uvy : ℚ) * (imageHeight + verticalMargin) + imageHeight)

/-- source: getImageAtPointer (part_005:544-555), given that the raycast hit
the sheet at texture coordinate `(uvx, uvy)`: `none` when the point is not
over an image, otherwise the grid cell by the same floor computation. -/
def getImageAtPointer (uvx uvy : ℚ) : Option Cell :=
  if isOverImage uvx uvy then some ⟨sheetGridY uvy, sheetGridX uvx⟩
  else none

/-! ## Frustum computations -/

/-- Camera extents in scene units. -/
structure Frustum where
  left : ℚ
  right : ℚ
  top : ℚ
  bottom : ℚ
deriving DecidableEq

/-- source: SheetAnimation.calculateZoomFrustum (SheetAnimation.js:141-153),
identical to ContactSheet.js:476-488: target height is 50 percent of the
viewport height; the returned pair is (total frustum height, aspect). -/
def calculateZoomFrustum (W H : ℚ) : ℚ × ℚ :=
  let targetHeight := H * (1 / 2)
  let frustumSize := targetHeight / 900 * 2
  (frustumSize, W / H)

/-- The camera extents applied from `calculateZoomFrustum` at zoom-in
(SheetAnimation.js:19-24): top/bottom are half the size, left/right are
aspect-corrected. -/
def zoomFrustumRect (W H : ℚ) : Frustum :=
  let s := calculateZoomFrustum W H
  let halfSize := s.1 / 2
  ⟨-(halfSize * s.2), halfSize * s.2, halfSize, -halfSize⟩

/-- source: overview framing (part_005:42-53 and SheetAnimation.js:76-79):
`frustumSize = aspect > 1 ? 4 : 4 / aspect`, aspect-corrected extents. -/
def overviewFrustum (W H : ℚ) : Frustum :=
  let aspect := W / H
  let frustumSize := if 1 < aspect then (4 : ℚ) else 4 / aspect
  let halfHeight := frustumSize / 2
  let halfWidth := frustumSize * aspect / 2
  ⟨-halfWidth, halfWidth, halfHeight, -halfHeight⟩

/-- Orthographic-projection semantics of the renderer (an external
collaborator per the spec): through a camera whose vertical frustum extent is
`size` scene units, an object of scene height `h` covers `h / size` of the
viewport, i.e. `h * H / size` pixels.  Applied to the focused image, whose
scene height is `imageHeight * layoutScale`, under the zoom frustum. -/
def onScreenFocusedImageHeight (W H : ℚ) : ℚ :=
  imageHeight * layoutScale * H / (calculateZoomFrustum W H).1

/-! ## Interaction state machine (part_005 / part_010) -/

/-- source: SheetState enum (part_010:17-21). -/
inductive SheetState where
  | idle
  | zoomedIn
  | animating
deriving DecidableEq

/-- The swipe axis, decided once per drag session and frozen. -/
inductive SwipeDir where
  | horizontal
  | vertical
deriving DecidableEq

/-- Data-level encoding of the completion callback attached to the camera
position tween: `commitCell c` models the callbacks that set
`currentImage := c` and then `state := ZOOMED_IN` (moveToImage part_005:431-437,
zoomToImage completion part_005:761-764); `noop` models a tween with no
completion callback. -/
inductive PosDone where
  | noop
  | commitCell (c : Cell)
deriving DecidableEq

/-- Data-level encoding of the completion callback attached to the camera
frustum tween: `zoomOutDone f` models the zoom-out completion
(SheetAnimation.js:92-104) which refreshes `originalFrustum` to `f` and then
sets `state := IDLE` (via the 150 ms cooldown of part_005:885-891). -/
inductive FrusDone where
  | noop
  | zoomOutDone (f : Frustum)
deriving DecidableEq

/-- The mutable fields of ContactSheet (part_005:27-87) that the claims are
about, together with the pending camera tweens and their encoded completion
callbacks. -/
structure Sheet where
  state : SheetState
  currentImage : Cell
  cameraX : ℚ
  cameraY : ℚ
  frustum : Frustum
  originalFrustum : Frustum
  posTween : Option (ℚ × ℚ)
  posDone : PosDone
  posDuration : ℚ
  frusTween : Option Frustum
  frusDone : FrusDone
  frusDuration : ℚ
  isDragging : Bool
  hasMovedBeyondThreshold : Bool
  startX : ℚ
  startY : ℚ
  lastX : ℚ
  lastY : ℚ
  lastTime : ℚ
  velocityX : JSNum
  velocityY : JSNum
  swipeDirection : Option SwipeDir
  multiTouchActive : Bool
  activeTouchCount : ℕ
  isPinching : Bool
  initialPinchScale : ℚ
  detailOpen : Bool
deriving DecidableEq

/-- source: SWIPE_VELOCITY_THRESHOLD = 0.3 px/ms (part_011:5). -/
def SWIPE_VELOCITY_THRESHOLD : ℚ := 3 / 10

/-- source: SWIPE_DISTANCE_THRESHOLD = 50 px (part_011:6). -/
def SWIPE_DISTANCE_THRESHOLD : ℚ := 50

/-- source: DRAG_THRESHOLD = 5 px (part_011:7). -/
def DRAG_THRESHOLD : ℚ := 5

/-- source: ANIMATION_DURATIONS.SUBSEQUENT_MOVEMENT = 0.3 s (part_011:10). -/
def SUBSEQUENT_MOVEMENT : ℚ := 3 / 10

/-- source: ANIMATION_DURATIONS.ZOOM_OUT_POSITION = 0.57 s (part_011:11). -/
def ZOOM_OUT_POSITION : ℚ := 57 / 100

/-- source: ANIMATION_DURATIONS.ZOOM_OUT_FRUSTUM = 0.85 s (part_011:12). -/
def ZOOM_OUT_FRUSTUM : ℚ := 85 / 100

/-- source: moveToImage (part_005:417-439): kill any position tween, enter
ANIMATING and start a 0.3 s position tween whose completion commits the
target cell and returns to ZOOMED_IN. -/
def moveToImage (s : Sheet) (target : Cell) : Sheet :=
  { s with
    state := SheetState.animating
    posTween := some (getImagePosition target.row target.col)
    posDone := PosDone.commitCell target
    posDuration := SUBSEQUENT_MOVEMENT }

/-- source: zoomToImage (part_005:759-778) delegating to
SheetAnimation.zoomToImage (SheetAnimation.js:11-58): start a frustum tween
to the zoom frustum (no state-mutating completion) and a position tween whose
completion commits the cell and the ZOOMED_IN state; durations depend on
whether the sheet was already zoomed in. -/
def zoomToImage (W H : ℚ) (s : Sheet) (r c : ℤ) : Sheet :=
  let isSubsequentMovement := s.state = SheetState.zoomedIn
  { s with
    state := SheetState.animating
    frusTween := some (zoomFrustumRect W H)
    frusDone := FrusDone.noop
    frusDuration := if isSubsequentMovement then 3 / 10 else 1
    posTween := some (getImagePosition r c)
    posDone := PosDone.commitCell ⟨r, c⟩
    posDuration := if isSubsequentMovement then 1 / 2 else 3 / 2 }

/-- source: zoomOut (part_005:883-903) delegating to SheetAnimation.zoomOut
(SheetAnimation.js:61-106): position tween to the origin with no completion
callback; frustum tween to a freshly computed overview frustum whose
completion refreshes originalFrustum and commits IDLE. -/
def zoomOut (W H : ℚ) (s : Sheet) : Sheet :=
  let f := overviewFrustum W H
  { s with
    state := SheetState.animating
    posTween := some (0, 0)
    posDone := PosDone.noop
    posDuration := ZOOM_OUT_POSITION
    frusTween := some f
    frusDone := FrusDone.zoomOutDone f
    frusDuration := ZOOM_OUT_FRUSTUM }

/-- source: showDetailView (part_005:697-707): only acts in ZOOMED_IN. -/
def showDetailView (s : Sheet) : Sheet :=
  if s.state = SheetState.zoomedIn then { s with detailOpen := true } else s

/-- source: handleInitialZoom (part_005:463-476): resolve the tapped cell and
zoom to it (brightness side-channel omitted -- it is not authoritative state). -/
def handleInitialZoom (W H : ℚ) (s : Sheet) (uvx uvy : ℚ) : Sheet :=
  match getImageAtPointer uvx uvy with
  | none => s
  | some c => zoomToImage W H s c.row c.col

/-- source: handleImageTap (part_005:441-454): tapping the focused cell opens
the detail view; tapping any other visible cell navigates to it (the source
comment: allow clicking on any visible image, not just adjacent ones). -/
def handleImageTap (s : Sheet) (uvx uvy : ℚ) : Sheet :=
  match getImageAtPointer uvx uvy with
  | none => s
  | some c =>
    if c = s.currentImage then showDetailView s else moveToImage s c

/-- source: handleTap (part_005:262-275): drops the event while ANIMATING,
dispatches to initial zoom from IDLE and to image interaction from
ZOOMED_IN. -/
def handleTap (W H : ℚ) (s : Sheet) (uvx uvy : ℚ) : Sheet :=
  if s.state = SheetState.animating then s
  else if s.state = SheetState.idle then handleInitialZoom W H s uvx uvy
  else if s.state = SheetState.zoomedIn then handleImageTap s uvx uvy
  else s

/-- source: handlePanStart (part_005:277-301): blocked during multi-touch and
while ANIMATING; in ZOOMED_IN it opens a drag session. -/
def handlePanStart (s : Sheet) (x y t : ℚ) : Sheet :=
  if 1 < s.activeTouchCount ∨ s.multiTouchActive = true then s
  else if s.state = SheetState.animating then s
  else if s.state = SheetState.zoomedIn then
    { s with
      isDragging := true
      hasMovedBeyondThreshold := false
      startX := x
      startY := y
      lastX := x
      lastY := y
      lastTime := t
      velocityX := JSNum.num 0
      velocityY := JSNum.num 0
      swipeDirection := none }
  else s

/-- source: handlePanMove (part_005:303-357); the identical drag-move logic
also appears as handleDragging (part_005:577-613, ContactSheet.js:268-294).
Blocked during multi-touch (which also force-clears isDragging); otherwise:
set the moved-beyond-threshold flag, compute instantaneous velocities as
delta / deltaTime with no guard against deltaTime = 0, freeze the swipe axis
on the first move, displace the camera along the frozen axis, and update the
last-sample fields. -/
def handlePanMove (H : ℚ) (s : Sheet) (x y t : ℚ) : Sheet :=
  if 1 < s.activeTouchCount ∨ s.multiTouchActive = true then
    { s with isDragging := false }
  else if s.isDragging = false ∨ s.state ≠ SheetState.zoomedIn then s
  else
    let s1 :=
      if s.hasMovedBeyondThreshold = false ∧
          (DRAG_THRESHOLD < |x - s.startX| ∨ DRAG_THRESHOLD < |y - s.startY|) then
        { s with hasMovedBeyondThreshold := true }
      else s
    let deltaTime := t - s1.lastTime
    let vx := jsDiv (x - s1.lastX) deltaTime
    let vy := jsDiv (y - s1.lastY) deltaTime
    let dir :=
      match s1.swipeDirection with
      | some d => some d
      | none =>
        some (if |y - s1.startY| < |x - s1.startX| then SwipeDir.horizontal
              else SwipeDir.vertical)
    let scale := (s1.frustum.top - s1.frustum.bottom) / H
    let dX := (x - s1.lastX) * scale
    let dY := (y - s1.lastY) * scale
    let s2 :=
      if dir = some SwipeDir.horizontal then { s1 with cameraX := s1.cameraX - dX }
      else { s1 with cameraY := s1.cameraY + dY }
    { s2 with
      velocityX := vx
      velocityY := vy
      swipeDirection := dir
      lastX := x
      lastY := y
      lastTime := t }

/-- The drag-end navigation decision block (part_005:385-408; identical in
handleDragEnd part_005:632-655 and ContactSheet.js:312-335): on the frozen
horizontal axis, movement triggers when |velocityX| exceeds the 0.3 px/ms
velocity threshold or |net displacement| exceeds the 50 px distance
threshold; the column then moves by one, clamped to the grid, in the
direction decided by `velocityX > 0 || totalDeltaX > 0` (positive means the
previous column); the vertical axis is symmetric on rows; when no movement
triggers, the target stays the current cell. -/
def dragEndTarget (s : Sheet) (x y : ℚ) : Cell :=
  if s.swipeDirection = some SwipeDir.horizontal then
    if jsGt (jsAbs s.velocityX) SWIPE_VELOCITY_THRESHOLD = true ∨
        SWIPE_DISTANCE_THRESHOLD < |x - s.startX| then
      if jsGt s.velocityX 0 = true ∨ 0 < x - s.startX then
        { s.currentImage with col := max 0 (s.currentImage.col - 1) }
      else
        { s.currentImage with
          col := min ((gridColumns : ℤ) - 1) (s.currentImage.col + 1) }
    else s.currentImage
  else
    if jsGt (jsAbs s.velocityY) SWIPE_VELOCITY_THRESHOLD = true ∨
        SWIPE_DISTANCE_THRESHOLD < |y - s.startY| then
      if jsGt s.velocityY 0 = true ∨ 0 < y - s.startY then
        { s.currentImage with row := max 0 (s.currentImage.row - 1) }
      else
        { s.currentImage with
          row := min ((gridRows : ℤ) - 1) (s.currentImage.row + 1) }
    else s.currentImage

/-- source: handlePanEnd (part_005:359-411); the identical drag-end logic
also appears as handleDragEnd (part_005:616-678, ContactSheet.js:296-350).
Blocked during multi-touch and pinch; a release below the drag threshold is
not a swipe; otherwise the navigation target is decided by `dragEndTarget`
and `moveToImage` starts the commit tween (a snap back to the current cell
when no movement triggered). -/
def handlePanEnd (s : Sheet) (x y : ℚ) : Sheet :=
  if 1 < s.activeTouchCount ∨ s.multiTouchActive = true then
    { s with isDragging := false }
  else if s.isDragging = false ∨ s.state ≠ SheetState.zoomedIn then s
  else if s.isPinching = true then s
  else
    let s1 := { s with isDragging := false }
    if s1.hasMovedBeyondThreshold = false then s1
    else moveToImage s1 (dragEndTarget s1 x y)

/-- source: touchStartHandler (part_005:131-168): a second simultaneous touch
immediately cancels any drag, snaps the camera back to the focused cell with
a 0.1 s tween (when ZOOMED_IN) and raises the multi-touch flag; a
single-touch start clears the flag. -/
def touchStartHandler (s : Sheet) (n : ℕ) : Sheet :=
  if 1 < n then
    let s1 := { s with isDragging := false, hasMovedBeyondThreshold := false }
    let s2 :=
      if s1.state = SheetState.zoomedIn then
        { s1 with
          posTween := some (getImagePosition s1.currentImage.row s1.currentImage.col)
          posDone := PosDone.noop
          posDuration := 1 / 10 }
      else s1
    { s2 with multiTouchActive := true, activeTouchCount := n }
  else
    { s with multiTouchActive := false, activeTouchCount := n }

/-- source: touchMoveHandler (part_005:170-182): fingers added during a move
also cancel the drag and raise the multi-touch flag. -/
def touchMoveHandler (s : Sheet) (n : ℕ) : Sheet :=
  let s1 :=
    if 1 < n ∧ s.multiTouchActive = false then
      { s with isDragging := false, hasMovedBeyondThreshold := false,
               multiTouchActive := true }
    else s
  { s1 with activeTouchCount := n }

/-- source: touchEndHandler / touchCancelHandler (part_005:184-200): the
multi-touch flag is reset only when all fingers are lifted. -/
def touchEndHandler (s : Sheet) (n : ℕ) : Sheet :=
  let s1 := { s with activeTouchCount := n }
  if n = 0 then { s1 with multiTouchActive := false } else s1

/-- source: handlePinchStart (part_005:914-952): only in ZOOMED_IN; records
the initial pinch scale, force-cancels an ongoing drag (snapping the camera
back over 0.1 s if it had moved), and aborts unless the pinch is centred on
the focused image. -/
def handlePinchStart (s : Sheet) (scale uvx uvy : ℚ) : Sheet :=
  if s.state ≠ SheetState.zoomedIn then s
  else
    let s1 := { s with isPinching := true, initialPinchScale := scale }
    let s2 :=
      if s1.isDragging = true then
        let s3 := { s1 with isDragging := false }
        if s3.hasMovedBeyondThreshold = true then
          { s3 with
            posTween := some (getImagePosition s3.currentImage.row s3.currentImage.col)
            posDone := PosDone.noop
            posDuration := 1 / 10 }
        else s3
      else s1
    match getImageAtPointer uvx uvy with
    | none => { s2 with isPinching := false }
    | some c => if c = s2.currentImage then s2 else { s2 with isPinching := false }

/-- source: handlePinchOut (part_005:954-971): when the scale ratio relative
to the pinch start exceeds 1.3, stop any pan state and open the detail view;
the camera is not touched. -/
def handlePinchOut (s : Sheet) (scale : ℚ) : Sheet :=
  if s.isPinching = false ∨ s.state ≠ SheetState.zoomedIn then s
  else
    let pinchChange := scale / s.initialPinchScale
    if 13 / 10 < pinchChange then
      showDetailView
        { s with isPinching := false, isDragging := false,
                 hasMovedBeyondThreshold := false }
    else s

/-- source: handlePinchIn (part_005:977-995): when the scale ratio falls
below 0.7, stop any pan state and trigger the zoom-out transition. -/
def handlePinchIn (W H : ℚ) (s : Sheet) (scale : ℚ) : Sheet :=
  if s.isPinching = false ∨ s.state ≠ SheetState.zoomedIn then s
  else
    let pinchChange := scale / s.initialPinchScale
    if pinchChange < 7 / 10 then
      zoomOut W H
        { s with isPinching := false, isDragging := false,
                 hasMovedBeyondThreshold := false }
    else s

/-- source: handlePinchEnd (part_005:973-975). -/
def handlePinchEnd (s : Sheet) : Sheet := { s with isPinching := false }

/-- source: handleZoomOut (part_010:118-122), the double-tap / double-click
trigger: only from ZOOMED_IN and not while dragging. -/
def handleZoomOut (W H : ℚ) (s : Sheet) : Sheet :=
  if s.state ≠ SheetState.zoomedIn ∨ s.isDragging = true then s
  else zoomOut W H s

/-- Completion of the pending camera-position tween: the camera reaches the
target and the encoded completion callback runs (commit the cell and the
ZOOMED_IN state for navigation tweens; nothing for callback-free tweens). -/
def posTweenComplete (s : Sheet) : Sheet :=
  match s.posTween with
  | none => s
  | some target =>
    let s1 := { s with cameraX := target.1, cameraY := target.2, posTween := none }
    match s.posDone with
    | PosDone.noop => s1
    | PosDone.commitCell c =>
      { s1 with currentImage := c, state := SheetState.zoomedIn,
                posDone := PosDone.noop }

/-- Completion of the pending camera-frustum tween: the frustum reaches the
target and the encoded completion callback runs (for zoom-out: refresh
originalFrustum and commit IDLE, SheetAnimation.js:92-104). -/
def frusTweenComplete (s : Sheet) : Sheet :=
  match s.frusTween with
  | none => s
  | some f =>
    let s1 := { s with frustum := f, frusTween := none }
    match s.frusDone with
    | FrusDone.noop => s1
    | FrusDone.zoomOutDone orig =>
      { s1 with originalFrustum := orig, state := SheetState.idle,
                frusDone := FrusDone.noop }

/-- The semantic gesture events delivered by GestureManager
(GestureManager.js:40-51) and the system touch monitors (part_005:203-219),
plus the two tween-completion events of the animation engine. -/
inductive Ev where
  | tap (uvx uvy : ℚ)
  | panStart (x y t : ℚ)
  | panMove (x y t : ℚ)
  | panEnd (x y : ℚ)
  | touchStart (n : ℕ)
  | touchMove (n : ℕ)
  | touchEnd (n : ℕ)
  | touchCancel (n : ℕ)
  | pinchStart (scale uvx uvy : ℚ)
  | pinchIn (scale : ℚ)
  | pinchOut (scale : ℚ)
  | pinchEnd
  | doubleTap
  | posDoneEv
  | frusDoneEv
deriving DecidableEq

/-- Event dispatch, mirroring the wiring of setupGestureManager
(part_005:126-235) and setupSheetInteraction (part_010:23-185), with the two
tween-completion events of the animation engine. -/
def step (W H : ℚ) (s : Sheet) : Ev → Sheet
  | Ev.tap ux uy => handleTap W H s ux uy
  | Ev.panStart x y t => handlePanStart s x y t
  | Ev.panMove x y t => handlePanMove H s x y t
  | Ev.panEnd x y => handlePanEnd s x y
  | Ev.touchStart n => touchStartHandler s n
  | Ev.touchMove n => touchMoveHandler s n
  | Ev.touchEnd n => touchEndHandler s n
  | Ev.touchCancel n => touchEndHandler s n
  | Ev.pinchStart sc ux uy => handlePinchStart s sc ux uy
  | Ev.pinchIn sc => handlePinchIn W H s sc
  | Ev.pinchOut sc => handlePinchOut s sc
  | Ev.pinchEnd => handlePinchEnd s
  | Ev.doubleTap => handleZoomOut W H s
  | Ev.posDoneEv => posTweenComplete s
  | Ev.frusDoneEv => frusTweenComplete s

/-- The events that come from gestures; the two completion events come from
the animation engine, not from gestures. -/
def gestureEv : Ev → Bool
  | Ev.posDoneEv => false
  | Ev.frusDoneEv => false
  | _ => true

/-- The constructor state of ContactSheet (part_005:27-87): IDLE, cell (0,0),
overview frustum, no session state. -/
def initSheet (W H : ℚ) : Sheet :=
  { state := SheetState.idle
    currentImage := ⟨0, 0⟩
    cameraX := 0
    cameraY := 0
    frustum := overviewFrustum W H
    originalFrustum := overviewFrustum W H
    posTween := none
    posDone := PosDone.noop
    posDuration := 0
    frusTween := none
    frusDone := FrusDone.noop
    frusDuration := 0
    isDragging := false
    hasMovedBeyondThreshold := false
    startX := 0
    startY := 0
    lastX := 0
    lastY := 0
    lastTime := 0
    velocityX := JSNum.num 0
    velocityY := JSNum.num 0
    swipeDirection := none
    multiTouchActive := false
    activeTouchCount := 0
    isPinching := false
    initialPinchScale := 1
    detailOpen := false }

/-- Reachability: the states the interaction machine can be in, starting from
the constructor state, under any sequence of gesture and completion events. -/
inductive Reachable (W H : ℚ) : Sheet → Prop where
  | init : Reachable W H (initSheet W H)
  | next (s : Sheet) (e : Ev) : Reachable W H s → Reachable W H (step W H s e)

/-- The grid-bounds invariant of a cell. -/
def inBounds (c : Cell) : Prop :=
  0 ≤ c.row ∧ c.row < (gridRows : ℤ) ∧ 0 ≤ c.col ∧ c.col < (gridColumns : ℤ)

instance (c : Cell) : Decidable (inBounds c) := by
  unfold inBounds
  infer_instance

/-! ## Bounds invariant -/

/-- Cells resolved by getImageAtPointer are always on the grid, because
isOverImage rejects out-of-range grid indices (part_011:39-41). -/
theorem getImageAtPointer_inBounds (uvx uvy : ℚ) (c : Cell)
    (h : getImageAtPointer uvx uvy = some c) : inBounds c := by
  unfold getImageAtPointer at h
  split at h
  case isFalse => exact absurd h (by simp)
  case isTrue hov =>
    unfold isOverImage at hov
    split at hov
    case isTrue => exact absurd hov (by simp)
    case isFalse hP =>
      push_neg at hP
      obtain ⟨h1, h2, h3, h4⟩ := hP
      obtain ⟨⟩ := Option.some_injective _ h
      exact ⟨h3, h4, h1, h2⟩

/-- The inductive invariant: the focused cell is on the grid and so is any
cell pending in a position-tween commit callback. -/
def SheetInv (s : Sheet) : Prop :=
  inBounds s.currentImage ∧ ∀ c, s.posDone = PosDone.commitCell c → inBounds c

theorem sheetInv_moveToImage (s : Sheet) (t : Cell) (hs : SheetInv s) (ht : inBounds t) :
    SheetInv (moveToImage s t) := by
  refine ⟨hs.1, fun c hc => ?_⟩
  have : t = c := by simpa [moveToImage] using hc
  exact this ▸ ht

theorem sheetInv_zoomToImage (W H : ℚ) (s : Sheet) (r c : ℤ) (hs : SheetInv s)
    (ht : inBounds ⟨r, c⟩) : SheetInv (zoomToImage W H s r c) := by
  refine ⟨hs.1, fun d hd => ?_⟩
  have : (⟨r, c⟩ : Cell) = d := by simpa [zoomToImage] using hd
  exact this ▸ ht

theorem sheetInv_zoomOut (W H : ℚ) (s : Sheet) (hs : SheetInv s) : SheetInv (zoomOut W H s) := by
  exact ⟨hs.1, fun c hc => absurd hc (by simp [zoomOut])⟩

theorem sheetInv_of_fields (s t : Sheet) (hs : SheetInv s)
    (h1 : t.currentImage = s.currentImage)
    (h2 : t.posDone = s.posDone ∨ t.posDone = PosDone.noop) : SheetInv t := by
  refine ⟨by rw [h1]; exact hs.1, fun c hc => ?_⟩
  rcases h2 with h2 | h2
  · exact hs.2 c (h2 ▸ hc)
  · rw [h2] at hc
    cases hc

theorem sheetInv_showDetailView (s : Sheet) (hs : SheetInv s) :
    SheetInv (showDetailView s) := by
  unfold showDetailView
  split_ifs
  · exact ⟨hs.1, fun c hc => hs.2 c hc⟩
  · exact hs

theorem sheetInv_handleTap (W H : ℚ) (s : Sheet) (ux uy : ℚ) (hs : SheetInv s) :
    SheetInv (handleTap W H s ux uy) := by
  unfold handleTap handleInitialZoom handleImageTap
  split_ifs <;> try exact hs
  · cases hres : getImageAtPointer ux uy with
    | none => simpa [hres] using hs
    | some c =>
      simp only [hres]
      exact sheetInv_zoomToImage W H s c.row c.col hs
        (by simpa using getImageAtPointer_inBounds ux uy c hres)
  · cases hres : getImageAtPointer ux uy with
    | none => simpa [hres] using hs
    | some c =>
      simp only [hres]
      split_ifs
      · exact sheetInv_showDetailView s hs
      · exact sheetInv_moveToImage s c hs (getImageAtPointer_inBounds ux uy c hres)

theorem handlePanStart_frame (s : Sheet) (x y t : ℚ) :
    (handlePanStart s x y t).currentImage = s.currentImage ∧
    (handlePanStart s x y t).posDone = s.posDone := by
  unfold handlePanStart
  split_ifs <;> exact ⟨rfl, rfl⟩

theorem handlePanMove_frame (H : ℚ) (s : Sheet) (x y t : ℚ) :
    (handlePanMove H s x y t).currentImage = s.currentImage ∧
    (handlePanMove H s x y t).posDone = s.posDone := by
  simp only [handlePanMove]
  split_ifs <;> exact ⟨rfl, rfl⟩

theorem dragEndTarget_inBounds (s : Sheet) (x y : ℚ) (h : inBounds s.currentImage) :
    inBounds (dragEndTarget s x y) := by
  obtain ⟨h1, h2, h3, h4⟩ := h
  simp only [gridRows, gridColumns] at h2 h4
  simp only [dragEndTarget]
  split_ifs <;>
    refine ⟨?_, ?_, ?_, ?_⟩ <;> (try simp only [gridRows, gridColumns]) <;>
      (try simp) <;> omega

theorem sheetInv_handlePanEnd (s : Sheet) (x y : ℚ) (hs : SheetInv s) :
    SheetInv (handlePanEnd s x y) := by
  obtain ⟨hb, hp⟩ := hs
  simp only [handlePanEnd]
  split_ifs <;>
    first
    | exact ⟨hb, hp⟩
    | exact sheetInv_moveToImage _ _ ⟨hb, hp⟩ (dragEndTarget_inBounds _ x y hb)

theorem touchStartHandler_frame (s : Sheet) (n : ℕ) :
    (touchStartHandler s n).currentImage = s.currentImage ∧
    ((touchStartHandler s n).posDone = s.posDone ∨
     (touchStartHandler s n).posDone = PosDone.noop) := by
  simp only [touchStartHandler]
  split_ifs <;> simp

theorem sheetInv_touchStartHandler (s : Sheet) (n : ℕ) (hs : SheetInv s) :
    SheetInv (touchStartHandler s n) :=
  sheetInv_of_fields s _ hs (touchStartHandler_frame s n).1 (touchStartHandler_frame s n).2

theorem sheetInv_touchMoveHandler (s : Sheet) (n : ℕ) (hs : SheetInv s) :
    SheetInv (touchMoveHandler s n) := by
  refine sheetInv_of_fields s _ hs ?_ (Or.inl ?_) <;>
    simp only [touchMoveHandler] <;> split_ifs <;> rfl

theorem sheetInv_touchEndHandler (s : Sheet) (n : ℕ) (hs : SheetInv s) :
    SheetInv (touchEndHandler s n) := by
  refine sheetInv_of_fields s _ hs ?_ (Or.inl ?_) <;>
    simp only [touchEndHandler] <;> split_ifs <;> rfl

theorem handlePinchStart_frame (s : Sheet) (sc ux uy : ℚ) :
    (handlePinchStart s sc ux uy).currentImage = s.currentImage ∧
    ((handlePinchStart s sc ux uy).posDone = s.posDone ∨
     (handlePinchStart s sc ux uy).posDone = PosDone.noop) := by
  simp only [handlePinchStart]
  split_ifs <;> try exact ⟨rfl, Or.inl rfl⟩
  all_goals split <;> (try split_ifs) <;> simp

theorem sheetInv_handlePinchStart (s : Sheet) (sc ux uy : ℚ) (hs : SheetInv s) :
    SheetInv (handlePinchStart s sc ux uy) :=
  sheetInv_of_fields s _ hs (handlePinchStart_frame s sc ux uy).1
    (handlePinchStart_frame s sc ux uy).2

theorem sheetInv_handlePinchOut (s : Sheet) (sc : ℚ) (hs : SheetInv s) :
    SheetInv (handlePinchOut s sc) := by
  refine sheetInv_of_fields s _ hs ?_ (Or.inl ?_) <;>
    simp only [handlePinchOut, showDetailView] <;> split_ifs <;> rfl

theorem sheetInv_handlePinchIn (W H : ℚ) (s : Sheet) (sc : ℚ) (hs : SheetInv s) :
    SheetInv (handlePinchIn W H s sc) := by
  simp only [handlePinchIn]
  split_ifs with h1 h2
  · exact hs
  · exact sheetInv_zoomOut W H _ ⟨hs.1, fun c hc => hs.2 c hc⟩
  · exact hs

theorem sheetInv_handleZoomOut (W H : ℚ) (s : Sheet) (hs : SheetInv s) :
    SheetInv (handleZoomOut W H s) := by
  unfold handleZoomOut
  split_ifs
  · exact hs
  · exact sheetInv_zoomOut W H s hs

theorem sheetInv_posTweenComplete (s : Sheet) (hs : SheetInv s) : SheetInv (posTweenComplete s) := by
  unfold posTweenComplete
  cases hpt : s.posTween with
  | none => exact hs
  | some target =>
    cases hpd : s.posDone with
    | noop => exact ⟨hs.1, fun c hc => hs.2 c (by simpa using hc)⟩
    | commitCell c =>
      exact ⟨hs.2 c hpd, fun d hd => absurd hd (by simp)⟩

theorem sheetInv_frusTweenComplete (s : Sheet) (hs : SheetInv s) : SheetInv (frusTweenComplete s) := by
  unfold frusTweenComplete
  cases hft : s.frusTween with
  | none => exact hs
  | some f =>
    cases hfd : s.frusDone with
    | noop => exact ⟨hs.1, fun c hc => hs.2 c hc⟩
    | zoomOutDone orig => exact ⟨hs.1, fun c hc => hs.2 c hc⟩

theorem sheetInv_step (W H : ℚ) (s : Sheet) (e : Ev) (hs : SheetInv s) : SheetInv (step W H s e) := by
  cases e with
  | tap ux uy => exact sheetInv_handleTap W H s ux uy hs
  | panStart x y t =>
    have h := handlePanStart_frame s x y t
    exact ⟨h.1 ▸ hs.1, fun c hc => hs.2 c (h.2 ▸ hc)⟩
  | panMove x y t =>
    have h := handlePanMove_frame H s x y t
    exact ⟨h.1 ▸ hs.1, fun c hc => hs.2 c (h.2 ▸ hc)⟩
  | panEnd x y => exact sheetInv_handlePanEnd s x y hs
  | touchStart n => exact sheetInv_touchStartHandler s n hs
  | touchMove n => exact sheetInv_touchMoveHandler s n hs
  | touchEnd n => exact sheetInv_touchEndHandler s n hs
  | touchCancel n => exact sheetInv_touchEndHandler s n hs
  | pinchStart sc ux uy => exact sheetInv_handlePinchStart s sc ux uy hs
  | pinchIn sc => exact sheetInv_handlePinchIn W H s sc hs
  | pinchOut sc => exact sheetInv_handlePinchOut s sc hs
  | pinchEnd => exact ⟨hs.1, fun c hc => hs.2 c hc⟩
  | doubleTap => exact sheetInv_handleZoomOut W H s hs
  | posDoneEv => exact sheetInv_posTweenComplete s hs
  | frusDoneEv => exact sheetInv_frusTweenComplete s hs

theorem sheetInv_reachable (W H : ℚ) (s : Sheet) (h : Reachable W H s) : SheetInv s := by
  induction h with
  | init =>
    exact ⟨by simp [initSheet, inBounds, gridRows, gridColumns],
           fun c hc => absurd hc (by simp [initSheet])⟩
  | next s e _ ih => exact sheetInv_step W H s e ih

/-! ## Claim theorems -/

/-- C2: In every reachable state the focused cell `currentImage` satisfies
`0 ≤ row < rows` and `0 ≤ col < columns`; applying any further operation
(gesture or tween completion, all of which are total functions, so nothing
throws) again yields an in-range cell; and a swipe/drag commit that would
move past a grid edge leaves the focused cell unchanged: when the focused
column is 0 and the drag-end decision points further left (decrement
direction on the frozen horizontal axis), the commit target is the unchanged
current cell (the pending commit is either untouched or a snap back to the
same cell). -/
theorem c2_currentImage_inBounds (W H : ℚ) (s : Sheet) (h : Reachable W H s) :
    (0 ≤ s.currentImage.row ∧ s.currentImage.row < (gridRows : ℤ) ∧
     0 ≤ s.currentImage.col ∧ s.currentImage.col < (gridColumns : ℤ)) ∧
    (∀ e : Ev,
      0 ≤ (step W H s e).currentImage.row ∧
      (step W H s e).currentImage.row < (gridRows : ℤ) ∧
      0 ≤ (step W H s e).currentImage.col ∧
      (step W H s e).currentImage.col < (gridColumns : ℤ)) ∧
    (∀ x y : ℚ,
      s.currentImage.col = 0 →
      s.swipeDirection = some SwipeDir.horizontal →
      (jsGt s.velocityX 0 = true ∨ 0 < x - s.startX) →
      (handlePanEnd s x y).posDone = PosDone.commitCell s.currentImage ∨
      (handlePanEnd s x y).posDone = s.posDone) := by
  have hinv := sheetInv_reachable W H s h
  refine ⟨hinv.1, fun e => (sheetInv_step W H s e hinv).1, fun x y hc0 hax hdir => ?_⟩
  simp only [handlePanEnd, dragEndTarget]
  split_ifs <;> try exact Or.inr rfl
  all_goals try exact Or.inl rfl
  all_goals
    refine Or.inl ?_
    have hcell : ({ row := s.currentImage.row, col := 0 ⊔ (s.currentImage.col - 1) } : Cell) =
        s.currentImage := by
      have h01 : 0 ⊔ (s.currentImage.col - 1) = s.currentImage.col := by omega
      rw [h01]
    exact congrArg PosDone.commitCell hcell

/-- C3: whenever the interaction state is Animating, every gesture handler
(tap, pan start/move/end, system touch handlers, pinch handlers, double-tap)
returns without mutating the interaction state, the focused cell, the camera
(position and frustum), the pending tweens and their completion callbacks, or
the detail view; gesture events are dropped, not queued, and only the two
tween-completion events (excluded by `gestureEv`) may mutate state and
focused cell. -/
theorem c3_animating_drops_gestures (W H : ℚ) (s : Sheet) (e : Ev)
    (hs : s.state = SheetState.animating) (he : gestureEv e = true) :
    (step W H s e).state = s.state ∧
    (step W H s e).currentImage = s.currentImage ∧
    (step W H s e).cameraX = s.cameraX ∧
    (step W H s e).cameraY = s.cameraY ∧
    (step W H s e).frustum = s.frustum ∧
    (step W H s e).posTween = s.posTween ∧
    (step W H s e).frusTween = s.frusTween ∧
    (step W H s e).posDone = s.posDone ∧
    (step W H s e).frusDone = s.frusDone ∧
    (step W H s e).detailOpen = s.detailOpen := by
  cases e with
  | tap ux uy => simp [step, handleTap, hs]
  | panStart x y t =>
    simp only [step, handlePanStart]
    split_ifs <;> simp_all
  | panMove x y t =>
    simp only [step, handlePanMove]
    split_ifs <;> simp_all
  | panEnd x y =>
    simp only [step, handlePanEnd]
    split_ifs <;> simp_all
  | touchStart n =>
    simp only [step, touchStartHandler]
    split_ifs <;> simp_all
  | touchMove n =>
    simp only [step, touchMoveHandler]
    split_ifs <;> simp_all
  | touchEnd n =>
    simp only [step, touchEndHandler]
    split_ifs <;> simp_all
  | touchCancel n =>
    simp only [step, touchEndHandler]
    split_ifs <;> simp_all
  | pinchStart sc ux uy =>
    simp only [step, handlePinchStart]
    split_ifs <;> simp_all
  | pinchIn sc =>
    simp only [step, handlePinchIn]
    split_ifs <;> simp_all
  | pinchOut sc =>
    simp only [step, handlePinchOut]
    split_ifs <;> simp_all
  | pinchEnd => simp [step, handlePinchEnd]
  | doubleTap =>
    simp only [step, handleZoomOut]
    split_ifs <;> simp_all
  | posDoneEv => exact absurd he (by simp [gestureEv])
  | frusDoneEv => exact absurd he (by simp [gestureEv])

/-- A concrete Sheet stuck in the Animating state, for witnesses. -/
def animSheet : Sheet := { initSheet 1200 800 with state := SheetState.animating }

/-- Witness for C3 at a concrete Animating state and a concrete pan-move
gesture: the event is dropped. -/
theorem c3_animating_drops_gestures_witness :
    (step 1200 800 animSheet (Ev.panMove 5 5 5)).state = animSheet.state ∧
    (step 1200 800 animSheet (Ev.panMove 5 5 5)).currentImage = animSheet.currentImage ∧
    (step 1200 800 animSheet (Ev.panMove 5 5 5)).cameraX = animSheet.cameraX ∧
    (step 1200 800 animSheet (Ev.panMove 5 5 5)).cameraY = animSheet.cameraY ∧
    (step 1200 800 animSheet (Ev.panMove 5 5 5)).frustum = animSheet.frustum ∧
    (step 1200 800 animSheet (Ev.panMove 5 5 5)).posTween = animSheet.posTween ∧
    (step 1200 800 animSheet (Ev.panMove 5 5 5)).frusTween = animSheet.frusTween ∧
    (step 1200 800 animSheet (Ev.panMove 5 5 5)).posDone = animSheet.posDone ∧
    (step 1200 800 animSheet (Ev.panMove 5 5 5)).frusDone = animSheet.frusDone ∧
    (step 1200 800 animSheet (Ev.panMove 5 5 5)).detailOpen = animSheet.detailOpen :=
  c3_animating_drops_gestures 1200 800 animSheet (Ev.panMove 5 5 5) rfl rfl

/-- A concrete Sheet in the ZoomedIn state focused on cell (2,2), for
counterexamples and witnesses. -/
def zoomedSheet : Sheet :=
  { initSheet 1200 800 with state := SheetState.zoomedIn, currentImage := ⟨2, 2⟩ }

/-- C4 counterexample: the claim that the shared interaction state and
focused cell are mutated only from the position tween's completion callback,
and never from the frustum tween's, is false for the zoom-out transition: at
a concrete ZoomedIn state, `zoomOut` starts both tweens and it is the frustum
tween's completion callback that mutates the interaction state (to Idle),
while the position tween carries no completion callback at all. -/
theorem c4_frustum_commit_counterexample :
    (zoomOut 1200 800 zoomedSheet).state = SheetState.animating ∧
    (frusTweenComplete (zoomOut 1200 800 zoomedSheet)).state = SheetState.idle ∧
    (frusTweenComplete (zoomOut 1200 800 zoomedSheet)).state ≠
      (zoomOut 1200 800 zoomedSheet).state ∧
    (posTweenComplete (zoomOut 1200 800 zoomedSheet)).state =
      (zoomOut 1200 800 zoomedSheet).state :=
  ⟨rfl, rfl, by decide, rfl⟩

/-- C4 amended: for the zoom-in transition (which starts a frustum tween and
a position tween) the shared interaction state and focused cell are committed
only from the position tween's completion callback, and the frustum tween's
completion never mutates them; for the zoom-out transition it is the other
way round: the position tween's completion mutates neither state nor focused
cell (it has no completion callback) and the interaction state is committed
to Idle from the frustum tween's completion callback. -/
theorem c4_commit_points (W H : ℚ) (s : Sheet) (r c : ℤ) :
    ((frusTweenComplete (zoomToImage W H s r c)).state = (zoomToImage W H s r c).state ∧
     (frusTweenComplete (zoomToImage W H s r c)).currentImage =
       (zoomToImage W H s r c).currentImage ∧
     (posTweenComplete (zoomToImage W H s r c)).currentImage = ⟨r, c⟩ ∧
     (posTweenComplete (zoomToImage W H s r c)).state = SheetState.zoomedIn) ∧
    ((posTweenComplete (zoomOut W H s)).state = (zoomOut W H s).state ∧
     (posTweenComplete (zoomOut W H s)).currentImage = (zoomOut W H s).currentImage ∧
     (frusTweenComplete (zoomOut W H s)).state = SheetState.idle ∧
     (frusTweenComplete (zoomOut W H s)).currentImage = (zoomOut W H s).currentImage) :=
  ⟨⟨rfl, rfl, rfl, rfl⟩, ⟨rfl, rfl, rfl, rfl⟩⟩

/-- A concrete reachable state: from the constructor state, tap the centre of
cell (0,0) (texture coordinate 110/1137, 54/61), let the position tween
complete (now ZoomedIn at (0,0)), start a pan at (100,100) and move to
(160,100): a 60 px rightward drag, beyond the drag threshold, frozen on the
horizontal axis, with positive velocity. -/
def traceDragSheet : Sheet :=
  step 1200 800
    (step 1200 800
      (step 1200 800
        (step 1200 800 (initSheet 1200 800) (Ev.tap (110 / 1137) (54 / 61)))
        Ev.posDoneEv)
      (Ev.panStart 100 100 0))
    (Ev.panMove 160 100 10)

/-- Witness for C2: the concrete reachable drag state is in bounds, and a
drag release there (rightward past the left edge from column 0) commits the
unchanged current cell. -/
theorem c2_currentImage_inBounds_witness :
    (0 ≤ traceDragSheet.currentImage.row ∧
     traceDragSheet.currentImage.row < (gridRows : ℤ) ∧
     0 ≤ traceDragSheet.currentImage.col ∧
     traceDragSheet.currentImage.col < (gridColumns : ℤ)) ∧
    ((handlePanEnd traceDragSheet 160 100).posDone =
        PosDone.commitCell traceDragSheet.currentImage ∨
     (handlePanEnd traceDragSheet 160 100).posDone = traceDragSheet.posDone) := by
  have hr : Reachable 1200 800 traceDragSheet :=
    Reachable.next _ _ (Reachable.next _ _ (Reachable.next _ _
      (Reachable.next _ _ Reachable.init)))
  have h := c2_currentImage_inBounds 1200 800 traceDragSheet hr
  exact ⟨h.1, h.2.2 160 100 (by with_unfolding_all rfl) (by with_unfolding_all rfl)
    (Or.inl (by with_unfolding_all rfl))⟩

/-- C5: for every valid cell (row, col) with 0 ≤ row < rows and
0 ≤ col < columns, converting the cell to its scene position with
getImagePosition and resolving the nearest cell from that position with
findNearestImage returns exactly (row, col). -/
theorem c5_layout_invertible :
    ∀ r : ℕ, r < gridRows → ∀ c : ℕ, c < gridColumns →
      findNearestImage (getImagePosition r c).1 (getImagePosition r c).2 =
        ⟨(r : ℤ), (c : ℤ)⟩ :=
  of_decide_eq_true (by with_unfolding_all rfl)

/-- Witness for C5 at the concrete cell (2,3). -/
theorem c5_layout_invertible_witness :
    findNearestImage (getImagePosition ((2 : ℕ) : ℤ) ((3 : ℕ) : ℤ)).1
        (getImagePosition ((2 : ℕ) : ℤ) ((3 : ℕ) : ℤ)).2 =
      ⟨((2 : ℕ) : ℤ), ((3 : ℕ) : ℤ)⟩ :=
  c5_layout_invertible 2 (by norm_num [gridRows]) 3 (by norm_num [gridColumns])

/-- C6 counterexample: the claim that the zoom frustum makes the focused
image occupy approximately 50 percent of the viewport height fails in
general: at a 800x600 viewport the focused image's on-screen height is
189000/379 (about 498.7 px) while half the viewport height is 300 px; the
difference exceeds 100 px, far outside any rounding tolerance. -/
theorem c6_fifty_percent_counterexample :
    100 < |onScreenFocusedImageHeight 800 600 - 600 * (1 / 2)| :=
  of_decide_eq_true (by with_unfolding_all rfl)

/-- C6 amended: entering the focused view computes the zoom frustum with
total height 2 * (0.5 * viewportHeight / 900) scene units, aspect-corrected
left/right extents, and the zoom-in transition tweens the camera to exactly
that frustum; however the resulting on-screen height of the focused image is
the viewport-independent constant 189000/379 (about 498.7 px), which is
approximately 50 percent of the viewport height only for viewports about
997 px tall, not in general. -/
theorem c6_zoom_frustum_height (W H : ℚ) (hH : H ≠ 0) :
    (calculateZoomFrustum W H).1 = 2 * (1 / 2 * H / 900) ∧
    (∀ (s : Sheet) (r c : ℤ),
      (zoomToImage W H s r c).frusTween = some (zoomFrustumRect W H)) ∧
    (zoomFrustumRect W H).top - (zoomFrustumRect W H).bottom =
      (calculateZoomFrustum W H).1 ∧
    (zoomFrustumRect W H).right = (calculateZoomFrustum W H).1 / 2 * (W / H) ∧
    (zoomFrustumRect W H).left = -((calculateZoomFrustum W H).1 / 2 * (W / H)) ∧
    onScreenFocusedImageHeight W H = 189000 / 379 := by
  refine ⟨by simp only [calculateZoomFrustum]; ring, fun s r c => rfl,
          by simp only [zoomFrustumRect, calculateZoomFrustum]; ring, rfl, rfl, ?_⟩
  simp only [onScreenFocusedImageHeight, calculateZoomFrustum, imageHeight, layoutScale,
    sheetWidth]
  field_simp
  ring

/-- Witness for C6 (amended) at the concrete 800x600 viewport. -/
theorem c6_zoom_frustum_height_witness :
    (calculateZoomFrustum 800 600).1 = 2 * (1 / 2 * 600 / 900) ∧
    onScreenFocusedImageHeight 800 600 = 189000 / 379 :=
  ⟨(c6_zoom_frustum_height 800 600 (by norm_num)).1,
   (c6_zoom_frustum_height 800 600 (by norm_num)).2.2.2.2.2⟩

/-- C1: in ZoomedIn, when a drag that moved beyond the 5 px drag threshold
ends (and is not blocked by multi-touch or a pinch), the release always
starts the commit tween through Animating, the commit target being
`dragEndTarget`; on the frozen horizontal axis with finite velocity v and
net displacement d = x - startX, movement triggers exactly when
|v| > 0.3 px/ms or |d| > 50 px, the column then moving to the neighbouring
column selected by the sign rule `v > 0 or d > 0` (clamped); away from the
edges the column changes by exactly one; otherwise the target is the
unchanged current cell and the position tween snaps back to its resting
position.  The vertical axis is symmetric on rows. -/
theorem c1_dragEnd_decision (s : Sheet) (x y v : ℚ)
    (hst : s.state = SheetState.zoomedIn)
    (hdrag : s.isDragging = true)
    (hpin : s.isPinching = false)
    (hmt : s.multiTouchActive = false)
    (htc : s.activeTouchCount ≤ 1)
    (hmov : s.hasMovedBeyondThreshold = true) :
    ((handlePanEnd s x y).state = SheetState.animating ∧
     (handlePanEnd s x y).posDone = PosDone.commitCell (dragEndTarget s x y) ∧
     (handlePanEnd s x y).posTween =
       some (getImagePosition (dragEndTarget s x y).row (dragEndTarget s x y).col)) ∧
    (s.swipeDirection = some SwipeDir.horizontal → s.velocityX = JSNum.num v →
      ((3 / 10 < |v| ∨ 50 < |x - s.startX| →
         dragEndTarget s x y =
           ⟨s.currentImage.row,
            if 0 < v ∨ 0 < x - s.startX then 0 ⊔ (s.currentImage.col - 1)
            else ((gridColumns : ℤ) - 1) ⊓ (s.currentImage.col + 1)⟩) ∧
       (¬(3 / 10 < |v| ∨ 50 < |x - s.startX|) →
         dragEndTarget s x y = s.currentImage) ∧
       (0 < s.currentImage.col → s.currentImage.col < (gridColumns : ℤ) - 1 →
         (3 / 10 < |v| ∨ 50 < |x - s.startX|) →
         (dragEndTarget s x y).col = s.currentImage.col - 1 ∨
         (dragEndTarget s x y).col = s.currentImage.col + 1))) ∧
    (s.swipeDirection = some SwipeDir.vertical → s.velocityY = JSNum.num v →
      ((3 / 10 < |v| ∨ 50 < |y - s.startY| →
         dragEndTarget s x y =
           ⟨if 0 < v ∨ 0 < y - s.startY then 0 ⊔ (s.currentImage.row - 1)
            else ((gridRows : ℤ) - 1) ⊓ (s.currentImage.row + 1),
            s.currentImage.col⟩) ∧
       (¬(3 / 10 < |v| ∨ 50 < |y - s.startY|) →
         dragEndTarget s x y = s.currentImage) ∧
       (0 < s.currentImage.row → s.currentImage.row < (gridRows : ℤ) - 1 →
         (3 / 10 < |v| ∨ 50 < |y - s.startY|) →
         (dragEndTarget s x y).row = s.currentImage.row - 1 ∨
         (dragEndTarget s x y).row = s.currentImage.row + 1))) := by
  have hg1 : ¬(1 < s.activeTouchCount ∨ s.multiTouchActive = true) := by
    simp only [hmt]
    simp
    omega
  have hg2 : ¬(s.isDragging = false ∨ s.state ≠ SheetState.zoomedIn) := by
    simp [hdrag, hst]
  have hg3 : ¬(s.isPinching = true) := by simp [hpin]
  have heq : handlePanEnd s x y =
      moveToImage { s with isDragging := false }
        (dragEndTarget { s with isDragging := false } x y) := by
    simp only [handlePanEnd, if_neg hg1, if_neg hg2, if_neg hg3]
    rw [if_neg]
    simp [hmov]
  have hsame : dragEndTarget { s with isDragging := false } x y = dragEndTarget s x y := rfl
  refine ⟨?_, ?_, ?_⟩
  · rw [heq, hsame]
    exact ⟨rfl, rfl, rfl⟩
  · intro hax hvx
    refine ⟨?_, ?_, ?_⟩
    · intro hthr
      simp only [dragEndTarget, hax, if_pos, hvx, jsAbs, jsGt, decide_eq_true_eq,
        SWIPE_VELOCITY_THRESHOLD, SWIPE_DISTANCE_THRESHOLD]
      rw [if_pos hthr]
      split_ifs with hd1 <;> rfl
    · intro hthr
      simp only [dragEndTarget, hax, if_pos, hvx, jsAbs, jsGt, decide_eq_true_eq,
        SWIPE_VELOCITY_THRESHOLD, SWIPE_DISTANCE_THRESHOLD]
      rw [if_neg hthr]
    · intro hcl hcu hthr
      simp only [dragEndTarget, hax, if_pos, hvx, jsAbs, jsGt, decide_eq_true_eq,
        SWIPE_VELOCITY_THRESHOLD, SWIPE_DISTANCE_THRESHOLD]
      rw [if_pos hthr]
      simp only [gridColumns] at hcu ⊢
      split_ifs with hd
      · refine Or.inl ?_
        simp
        omega
      · refine Or.inr ?_
        simp
        omega
  · intro hax hvy
    have hnh : ¬(s.swipeDirection = some SwipeDir.horizontal) := by
      rw [hax]
      simp
    refine ⟨?_, ?_, ?_⟩
    · intro hthr
      simp only [dragEndTarget, if_neg hnh, hvy, jsAbs, jsGt, decide_eq_true_eq,
        SWIPE_VELOCITY_THRESHOLD, SWIPE_DISTANCE_THRESHOLD]
      rw [if_pos hthr]
      split_ifs with hd1 <;> rfl
    · intro hthr
      simp only [dragEndTarget, if_neg hnh, hvy, jsAbs, jsGt, decide_eq_true_eq,
        SWIPE_VELOCITY_THRESHOLD, SWIPE_DISTANCE_THRESHOLD]
      rw [if_neg hthr]
    · intro hcl hcu hthr
      simp only [dragEndTarget, if_neg hnh, hvy, jsAbs, jsGt, decide_eq_true_eq,
        SWIPE_VELOCITY_THRESHOLD, SWIPE_DISTANCE_THRESHOLD]
      rw [if_pos hthr]
      simp only [gridRows] at hcu ⊢
      split_ifs with hd
      · refine Or.inl ?_
        simp
        omega
      · refine Or.inr ?_
        simp
        omega

/-- A concrete drag session: ZoomedIn at cell (2,2), dragging, moved beyond
the 5 px threshold, frozen horizontal axis, low velocity -0.1 px/ms, drag
start at x = 500. -/
def dragSheetA : Sheet :=
  { initSheet 1200 800 with
    state := SheetState.zoomedIn
    currentImage := ⟨2, 2⟩
    isDragging := true
    hasMovedBeyondThreshold := true
    swipeDirection := some SwipeDir.horizontal
    velocityX := JSNum.num (-(1 / 10))
    startX := 500
    startY := 300 }

/-- Witness for C1: from cell (2,2), a horizontal drag of -80 px with low
velocity (released at x = 420) commits to (2,3) through Animating, and a
-20 px drag (released at x = 480, below both thresholds) snaps back to
(2,2). -/
theorem c1_dragEnd_decision_witness :
    (handlePanEnd dragSheetA 420 300).state = SheetState.animating ∧
    (handlePanEnd dragSheetA 420 300).posDone = PosDone.commitCell ⟨2, 3⟩ ∧
    (handlePanEnd dragSheetA 480 300).posDone = PosDone.commitCell ⟨2, 2⟩ ∧
    (handlePanEnd dragSheetA 480 300).posTween = some (getImagePosition 2 2) := by
  have h1 := c1_dragEnd_decision dragSheetA 420 300 (-(1 / 10)) rfl rfl rfl rfl
    (by norm_num [dragSheetA, initSheet]) rfl
  have h2 := c1_dragEnd_decision dragSheetA 480 300 (-(1 / 10)) rfl rfl rfl rfl
    (by norm_num [dragSheetA, initSheet]) rfl
  have e1 : dragEndTarget dragSheetA 420 300 = ⟨2, 3⟩ := by
    have := (h1.2.1 rfl rfl).1 (of_decide_eq_true (by with_unfolding_all rfl))
    rw [this]
    norm_num [dragSheetA, initSheet, gridColumns]
  have e2 : dragEndTarget dragSheetA 480 300 = ⟨2, 2⟩ := by
    have := (h2.2.1 rfl rfl).2.1 (of_decide_eq_false (by with_unfolding_all rfl))
    rw [this]
    have : dragSheetA.currentImage = (⟨2, 2⟩ : Cell) := rfl
    rw [this]
  refine ⟨h1.1.1, ?_, ?_, ?_⟩
  · rw [h1.1.2.1, e1]
  · rw [h2.1.2.1, e2]
  · rw [h2.1.2.2, e2]

/-- C7: from ZoomedIn, a tap that resolves to any on-screen cell different
from the focused cell always starts a navigation tween to that cell --
regardless of its row/col distance from the current cell, with no adjacency
restriction -- transitioning through Animating, commits it as the focused
cell on the position tween's completion, and uses a shorter-duration tween
(0.3 s) than the initial zoom-in (1.5 s position tween, 1 s frustum
tween). -/
theorem c7_tap_any_cell (W H : ℚ) (s : Sheet) (uvx uvy : ℚ) (c : Cell)
    (hs : s.state = SheetState.zoomedIn)
    (hres : getImageAtPointer uvx uvy = some c)
    (hne : c ≠ s.currentImage) :
    (handleTap W H s uvx uvy).state = SheetState.animating ∧
    (handleTap W H s uvx uvy).posTween = some (getImagePosition c.row c.col) ∧
    (handleTap W H s uvx uvy).posDone = PosDone.commitCell c ∧
    (handleTap W H s uvx uvy).posDuration = SUBSEQUENT_MOVEMENT ∧
    (handleTap W H s uvx uvy).posDuration <
      (zoomToImage W H (initSheet W H) c.row c.col).posDuration ∧
    (handleTap W H s uvx uvy).posDuration <
      (zoomToImage W H (initSheet W H) c.row c.col).frusDuration ∧
    (posTweenComplete (handleTap W H s uvx uvy)).currentImage = c ∧
    (posTweenComplete (handleTap W H s uvx uvy)).state = SheetState.zoomedIn := by
  have heq : handleTap W H s uvx uvy = moveToImage s c := by
    unfold handleTap
    rw [if_neg (show ¬s.state = SheetState.animating by simp [hs]),
        if_neg (show ¬s.state = SheetState.idle by simp [hs]), if_pos hs]
    unfold handleImageTap
    rw [hres]
    exact if_neg hne
  rw [heq]
  refine ⟨rfl, rfl, rfl, rfl, ?_, ?_, rfl, rfl⟩
  · exact (by norm_num : (3 : ℚ) / 10 < 3 / 2)
  · exact (by norm_num : (3 : ℚ) / 10 < 1)

/-- Witness for C7: from ZoomedIn focused on (2,2), tapping the centre of
cell (5,5) -- three rows and three columns away, far outside the 8
neighbours -- starts the navigation and commits (5,5). -/
theorem c7_tap_any_cell_witness :
    (handleTap 1200 800 zoomedSheet (1025 / 1137) (7 / 61)).state =
      SheetState.animating ∧
    (handleTap 1200 800 zoomedSheet (1025 / 1137) (7 / 61)).posDone =
      PosDone.commitCell ⟨5, 5⟩ ∧
    (posTweenComplete
      (handleTap 1200 800 zoomedSheet (1025 / 1137) (7 / 61))).currentImage =
      ⟨5, 5⟩ := by
  have h := c7_tap_any_cell 1200 800 zoomedSheet (1025 / 1137) (7 / 61) ⟨5, 5⟩ rfl
    (by with_unfolding_all rfl) (by decide)
  exact ⟨h.1, h.2.2.1, h.2.2.2.2.2.2.1⟩

/-- C8: in ZoomedIn with an active pinch, a pinch-out whose scale ratio
relative to the pinch-start scale exceeds 1.3 opens the DetailOverlay with no
camera change (position, frustum and pending tweens untouched, state stays
ZoomedIn) after cancelling any concurrent drag state; a pinch-in whose ratio
falls below 0.7 cancels any concurrent drag state and triggers the zoom-out
transition through Animating, reaching Idle when the zoom-out frustum tween
completes. -/
theorem c8_pinch_thresholds (W H : ℚ) (s : Sheet) (scale : ℚ)
    (hs : s.state = SheetState.zoomedIn) (hp : s.isPinching = true) :
    (13 / 10 < scale / s.initialPinchScale →
      (handlePinchOut s scale).detailOpen = true ∧
      (handlePinchOut s scale).state = SheetState.zoomedIn ∧
      (handlePinchOut s scale).currentImage = s.currentImage ∧
      (handlePinchOut s scale).cameraX = s.cameraX ∧
      (handlePinchOut s scale).cameraY = s.cameraY ∧
      (handlePinchOut s scale).frustum = s.frustum ∧
      (handlePinchOut s scale).posTween = s.posTween ∧
      (handlePinchOut s scale).frusTween = s.frusTween ∧
      (handlePinchOut s scale).isDragging = false ∧
      (handlePinchOut s scale).hasMovedBeyondThreshold = false) ∧
    (scale / s.initialPinchScale < 7 / 10 →
      (handlePinchIn W H s scale).state = SheetState.animating ∧
      (handlePinchIn W H s scale).isDragging = false ∧
      (handlePinchIn W H s scale).hasMovedBeyondThreshold = false ∧
      (handlePinchIn W H s scale).posTween = some (0, 0) ∧
      (handlePinchIn W H s scale).frusTween = some (overviewFrustum W H) ∧
      (frusTweenComplete (handlePinchIn W H s scale)).state = SheetState.idle) := by
  have hg : ¬(s.isPinching = false ∨ s.state ≠ SheetState.zoomedIn) := by
    simp [hp, hs]
  constructor
  · intro hratio
    have heq : handlePinchOut s scale =
        showDetailView
          { s with isPinching := false, isDragging := false,
                   hasMovedBeyondThreshold := false } := by
      simp only [handlePinchOut, if_neg hg, if_pos hratio]
    have hs2 : ({ s with isPinching := false, isDragging := false, hasMovedBeyondThreshold := false } : Sheet).state = SheetState.zoomedIn := hs
    rw [heq]
    simp only [showDetailView]
    rw [if_pos hs2]
    exact ⟨rfl, hs, rfl, rfl, rfl, rfl, rfl, rfl, rfl, rfl⟩
  · intro hratio
    have heq : handlePinchIn W H s scale =
        zoomOut W H
          { s with isPinching := false, isDragging := false,
                   hasMovedBeyondThreshold := false } := by
      simp only [handlePinchIn, if_neg hg, if_pos hratio]
    rw [heq]
    exact ⟨rfl, rfl, rfl, rfl, rfl, rfl⟩

/-- A concrete ZoomedIn state with an active pinch session started at scale
1, for the C8 witness. -/
def pinchSheet : Sheet := { zoomedSheet with isPinching := true }

/-- Witness for C8 at the concrete pinch ratios 1.5 (out) and 0.5 (in). -/
theorem c8_pinch_thresholds_witness :
    (handlePinchOut pinchSheet (3 / 2)).detailOpen = true ∧
    (handlePinchOut pinchSheet (3 / 2)).cameraX = pinchSheet.cameraX ∧
    (handlePinchOut pinchSheet (3 / 2)).isDragging = false ∧
    (handlePinchIn 1200 800 pinchSheet (1 / 2)).state = SheetState.animating ∧
    (frusTweenComplete (handlePinchIn 1200 800 pinchSheet (1 / 2))).state =
      SheetState.idle := by
  have hout := (c8_pinch_thresholds 1200 800 pinchSheet (3 / 2) rfl rfl).1
    (by norm_num [pinchSheet, zoomedSheet, initSheet])
  have hin := (c8_pinch_thresholds 1200 800 pinchSheet (1 / 2) rfl rfl).2
    (by norm_num [pinchSheet, zoomedSheet, initSheet])
  exact ⟨hout.1, hout.2.2.2.1, hout.2.2.2.2.2.2.2.2.1, hin.1, hin.2.2.2.2.2⟩

/-- The pan-session events of the gesture stream. -/
def panEv : Ev → Bool
  | Ev.panStart _ _ _ => true
  | Ev.panMove _ _ _ => true
  | Ev.panEnd _ _ => true
  | _ => false

/-- The events that reset the multi-touch flag: a touch end or cancel with
all fingers lifted (part_005:184-200), or a fresh touch start with a single
touch point (part_005:161-163). -/
def clearsMultiTouch : Ev → Bool
  | Ev.touchStart n => decide (n ≤ 1)
  | Ev.touchEnd n => decide (n = 0)
  | Ev.touchCancel n => decide (n = 0)
  | _ => false

/-- C9: once a second simultaneous touch point is registered, no pan-derived
camera displacement occurs until all touch points are released and a new
single-touch pan session starts.  Conjuncts: (1) detecting a second touch in
ZoomedIn immediately cancels any in-flight drag, raises the multi-touch flag
and starts a tween of the camera back to the focused cell's resting position;
(2) while the multi-touch flag is set, every pan event (start, move, end)
leaves the camera position and the pending tweens untouched; (3) the flag
persists under every event other than an all-fingers-lifted touch end/cancel
or a fresh single-touch start; (4) hence along any sequence of pan events the
camera position and pending position tween never change. -/
theorem c9_multitouch_exclusion (W H : ℚ) :
    (∀ (s : Sheet) (n : ℕ), s.state = SheetState.zoomedIn → 2 ≤ n →
      (touchStartHandler s n).isDragging = false ∧
      (touchStartHandler s n).hasMovedBeyondThreshold = false ∧
      (touchStartHandler s n).multiTouchActive = true ∧
      (touchStartHandler s n).posTween =
        some (getImagePosition s.currentImage.row s.currentImage.col) ∧
      (touchStartHandler s n).posDone = PosDone.noop) ∧
    (∀ (s : Sheet) (e : Ev), s.multiTouchActive = true → panEv e = true →
      (step W H s e).cameraX = s.cameraX ∧
      (step W H s e).cameraY = s.cameraY ∧
      (step W H s e).posTween = s.posTween ∧
      (step W H s e).frusTween = s.frusTween ∧
      (step W H s e).multiTouchActive = true) ∧
    (∀ (s : Sheet) (e : Ev), s.multiTouchActive = true → clearsMultiTouch e = false →
      (step W H s e).multiTouchActive = true) ∧
    (∀ (s : Sheet) (evs : List Ev), s.multiTouchActive = true →
      (∀ e ∈ evs, panEv e = true) →
      (evs.foldl (step W H) s).cameraX = s.cameraX ∧
      (evs.foldl (step W H) s).cameraY = s.cameraY ∧
      (evs.foldl (step W H) s).posTween = s.posTween ∧
      (evs.foldl (step W H) s).multiTouchActive = true) := by
  have hpan : ∀ (s : Sheet) (e : Ev), s.multiTouchActive = true → panEv e = true →
      (step W H s e).cameraX = s.cameraX ∧
      (step W H s e).cameraY = s.cameraY ∧
      (step W H s e).posTween = s.posTween ∧
      (step W H s e).frusTween = s.frusTween ∧
      (step W H s e).multiTouchActive = true := by
    intro s e hm hp
    have hcond : (1 < s.activeTouchCount ∨ s.multiTouchActive = true) := Or.inr hm
    cases e <;> simp only [panEv, Bool.false_eq_true] at hp
    · simp only [step, handlePanStart, if_pos hcond]
      simp [hm]
    · simp only [step, handlePanMove, if_pos hcond]
      simp [hm]
    · simp only [step, handlePanEnd, if_pos hcond]
      simp [hm]
  refine ⟨?_, hpan, ?_, ?_⟩
  · intro s n hs hn
    have h2 : 1 < n := hn
    have hz : ({ s with isDragging := false, hasMovedBeyondThreshold := false } : Sheet).state = SheetState.zoomedIn := hs
    simp [touchStartHandler, if_pos h2, if_pos hz]
  · intro s e hm hcl
    cases e with
    | tap ux uy =>
      show (handleTap W H s ux uy).multiTouchActive = true
      unfold handleTap
      split_ifs <;> try exact hm
      · unfold handleInitialZoom
        split <;> exact hm
      · unfold handleImageTap
        split
        · exact hm
        · split_ifs
          · unfold showDetailView
            split_ifs <;> exact hm
          · exact hm
    | panStart x y t =>
      simp only [step, handlePanStart]
      split_ifs <;> exact hm
    | panMove x y t =>
      simp only [step, handlePanMove]
      split_ifs <;> exact hm
    | panEnd x y =>
      simp only [step, handlePanEnd, moveToImage]
      split_ifs <;> exact hm
    | touchStart n =>
      simp only [clearsMultiTouch, decide_eq_false_iff_not, not_le] at hcl
      simp only [step, touchStartHandler, if_pos hcl]
    | touchMove n =>
      simp only [step, touchMoveHandler]
      split_ifs <;> first | rfl | exact hm
    | touchEnd n =>
      simp only [clearsMultiTouch, decide_eq_false_iff_not] at hcl
      simp only [step, touchEndHandler, if_neg hcl]
      exact hm
    | touchCancel n =>
      simp only [clearsMultiTouch, decide_eq_false_iff_not] at hcl
      simp only [step, touchEndHandler, if_neg hcl]
      exact hm
    | pinchStart sc ux uy =>
      show (handlePinchStart s sc ux uy).multiTouchActive = true
      dsimp only [handlePinchStart]
      split_ifs <;> try exact hm
      all_goals split <;> (try split_ifs) <;> exact hm
    | pinchIn sc =>
      simp only [step, handlePinchIn, zoomOut]
      split_ifs <;> exact hm
    | pinchOut sc =>
      simp only [step, handlePinchOut, showDetailView]
      split_ifs <;> exact hm
    | pinchEnd => exact hm
    | doubleTap =>
      simp only [step, handleZoomOut, zoomOut]
      split_ifs <;> exact hm
    | posDoneEv =>
      simp only [step, posTweenComplete]
      split <;> (try split) <;> exact hm
    | frusDoneEv =>
      simp only [step, frusTweenComplete]
      split <;> (try split) <;> exact hm
  · intro s evs hm hall
    induction evs generalizing s with
    | nil => exact ⟨rfl, rfl, rfl, hm⟩
    | cons e rest ih =>
      have hpe : panEv e = true := hall e (List.mem_cons_self e rest)
      have h1 := hpan s e hm hpe
      have h2 := ih (step W H s e) h1.2.2.2.2
        (fun e2 he2 => hall e2 (List.mem_cons_of_mem _ he2))
      simp only [List.foldl_cons]
      refine ⟨?_, ?_, ?_, h2.2.2.2⟩
      · rw [h2.1, h1.1]
      · rw [h2.2.1, h1.2.1]
      · rw [h2.2.2.1, h1.2.2.1]

/-- A concrete single-touch drag state with the multi-touch flag clear and
one active touch, for the C9 witness. -/
def singleTouchDragSheet : Sheet := { dragSheetA with activeTouchCount := 1 }

/-- Witness for C9: registering a second touch at the concrete drag state
cancels the drag, raises the multi-touch flag and snaps the camera tween
back to cell (2,2); with the flag raised, a concrete pan-move sequence never
changes the camera. -/
theorem c9_multitouch_exclusion_witness :
    ((touchStartHandler singleTouchDragSheet 2).isDragging = false ∧
     (touchStartHandler singleTouchDragSheet 2).multiTouchActive = true ∧
     (touchStartHandler singleTouchDragSheet 2).posTween =
       some (getImagePosition 2 2)) ∧
    (([Ev.panStart 10 10 0, Ev.panMove 90 10 5,
       Ev.panEnd 90 10].foldl (step 1200 800)
         (touchStartHandler singleTouchDragSheet 2)).cameraX =
       (touchStartHandler singleTouchDragSheet 2).cameraX ∧
     ([Ev.panStart 10 10 0, Ev.panMove 90 10 5,
       Ev.panEnd 90 10].foldl (step 1200 800)
         (touchStartHandler singleTouchDragSheet 2)).posTween =
       (touchStartHandler singleTouchDragSheet 2).posTween) := by
  have h := c9_multitouch_exclusion 1200 800
  have h1 := h.1 singleTouchDragSheet 2 rfl (by norm_num)
  have hmt : (touchStartHandler singleTouchDragSheet 2).multiTouchActive = true :=
    h1.2.2.1
  have h4 := h.2.2.2 (touchStartHandler singleTouchDragSheet 2)
    [Ev.panStart 10 10 0, Ev.panMove 90 10 5, Ev.panEnd 90 10] hmt
    (by
      intro e he
      simp only [List.mem_cons, List.not_mem_nil, or_false] at he
      rcases he with rfl | rfl | rfl <;> rfl)
  exact ⟨⟨h1.1, h1.2.2.1, h1.2.2.2.1⟩, h4.1, h4.2.2.1⟩

/-- C10: during a drag in ZoomedIn, handlePanMove computes the instantaneous
velocity as (current coordinate - last coordinate) / deltaTime, where
deltaTime is the elapsed time since the previous move event, with no guard
against deltaTime = 0: a move event carrying the same timestamp as the
previous one makes velocityX (resp. velocityY) +Infinity or -Infinity when
the pointer coordinate moved and NaN when it did not; because IEEE
comparisons with NaN are false, a NaN velocity never satisfies the
0.3 px/ms velocity threshold nor the direction test, so the drag-end commit
decision on the frozen horizontal axis then depends only on the 50 px
net-displacement threshold and the displacement's sign. -/
theorem c10_zero_deltaTime_velocity (H : ℚ) (s : Sheet) (x y : ℚ)
    (hmt : s.multiTouchActive = false) (htc : s.activeTouchCount ≤ 1)
    (hdrag : s.isDragging = true) (hst : s.state = SheetState.zoomedIn) :
    ((handlePanMove H s x y s.lastTime).velocityX = jsDiv (x - s.lastX) 0 ∧
     (handlePanMove H s x y s.lastTime).velocityY = jsDiv (y - s.lastY) 0 ∧
     (x ≠ s.lastX →
       (handlePanMove H s x y s.lastTime).velocityX =
         if 0 < x - s.lastX then JSNum.posInf else JSNum.negInf) ∧
     (x = s.lastX → (handlePanMove H s x y s.lastTime).velocityX = JSNum.nan)) ∧
    (jsGt (jsAbs JSNum.nan) SWIPE_VELOCITY_THRESHOLD = false ∧
     jsGt JSNum.nan 0 = false) ∧
    (s.velocityX = JSNum.nan → s.swipeDirection = some SwipeDir.horizontal →
      dragEndTarget s x y =
        if 50 < |x - s.startX| then
          (if 0 < x - s.startX then
             { s.currentImage with col := max 0 (s.currentImage.col - 1) }
           else
             { s.currentImage with
               col := min ((gridColumns : ℤ) - 1) (s.currentImage.col + 1) })
        else s.currentImage) := by
  have hg1 : ¬(1 < s.activeTouchCount ∨ s.multiTouchActive = true) := by
    simp only [hmt]
    simp
    omega
  have hg2 : ¬(s.isDragging = false ∨ s.state ≠ SheetState.zoomedIn) := by
    simp [hdrag, hst]
  refine ⟨⟨?_, ?_, ?_, ?_⟩, ⟨rfl, rfl⟩, ?_⟩
  · simp only [handlePanMove, if_neg hg1, if_neg hg2]
    split_ifs <;> simp [sub_self]
  · simp only [handlePanMove, if_neg hg1, if_neg hg2]
    split_ifs <;> simp [sub_self]
  · intro hne
    have hne2 : ¬(x - s.lastX = 0) := sub_ne_zero_of_ne hne
    simp only [handlePanMove, if_neg hg1, if_neg hg2]
    split_ifs <;> simp [jsDiv, sub_self, hne2] <;> linarith
  · intro heqx
    simp only [handlePanMove, if_neg hg1, if_neg hg2]
    split_ifs <;> simp [jsDiv, sub_self, heqx]
  · intro hnan hax
    simp only [dragEndTarget, hax, hnan, jsAbs, jsGt, SWIPE_VELOCITY_THRESHOLD,
      SWIPE_DISTANCE_THRESHOLD, Bool.false_eq_true, false_or, if_true, eq_self_iff_true]

/-- A concrete drag session whose previous move sample is at x = 480,
t = 10 ms, with a NaN velocity stored, for the C10 witness. -/
def nanDragSheet : Sheet :=
  { dragSheetA with velocityX := JSNum.nan, lastX := 480, lastY := 300, lastTime := 10 }

/-- Witness for C10: at the concrete drag state, a move event sharing the
previous timestamp yields velocityX = NaN when x is unchanged (480) and
velocityX = -Infinity when x moved to 430; |NaN| > 0.3 is false; and the
drag-end decision with the stored NaN velocity commits (2,2) to (2,3) on the
-80 px displacement alone. -/
theorem c10_zero_deltaTime_velocity_witness :
    (handlePanMove 800 nanDragSheet 480 300 nanDragSheet.lastTime).velocityX =
      JSNum.nan ∧
    (handlePanMove 800 nanDragSheet 430 300 nanDragSheet.lastTime).velocityX =
      JSNum.negInf ∧
    jsGt (jsAbs JSNum.nan) SWIPE_VELOCITY_THRESHOLD = false ∧
    dragEndTarget nanDragSheet 420 300 = ⟨2, 3⟩ := by
  have h1 := c10_zero_deltaTime_velocity 800 nanDragSheet 480 300 rfl
    (by norm_num [nanDragSheet, dragSheetA, initSheet]) rfl rfl
  have h2 := c10_zero_deltaTime_velocity 800 nanDragSheet 430 300 rfl
    (by norm_num [nanDragSheet, dragSheetA, initSheet]) rfl rfl
  have h3 := c10_zero_deltaTime_velocity 800 nanDragSheet 420 300 rfl
    (by norm_num [nanDragSheet, dragSheetA, initSheet]) rfl rfl
  refine ⟨h1.1.2.2.2 rfl, ?_, h1.2.1.1, ?_⟩
  · have he := h2.1.2.2.1 (by norm_num [nanDragSheet, dragSheetA, initSheet])
    rw [he, if_neg (by norm_num [nanDragSheet, dragSheetA, initSheet])]
  · have he := h3.2.2 rfl rfl
    rw [he, if_pos (of_decide_eq_true (by with_unfolding_all rfl)),
        if_neg (of_decide_eq_false (by with_unfolding_all rfl))]
    with_unfolding_all rfl
